import Mathlib

/-!
Verification development for a LangGraph ReAct agent with MCP tool backends.

Embedded sources:
- `src/langgraph_mcp/main.py` (stdio MCP agent)
- `src/langgraph_mcp/04_mcp_http_external_package.py` (HTTP MCP agent)
- `src/langgraph_mcp/01_no_mcp_langgraph_agent.py` (local-tools agent with a
  math-only classification gate)

Messages, tool calls and the graph-node semantics of `tools_condition`,
`ToolNode` and the `add_messages` reducer (the LangGraph primitives the
sources wire together in `build_graph`) are embedded as plain functional
definitions; the opaque reasoning engine (`llm_with_tools.ainvoke`) and the
per-backend liveness probe (`MultiServerMCPClient.get_tools`) are parameters.
-/

/-- Role of one conversational message, mirroring the LangChain message
classes used by the sources: `HumanMessage`, `AIMessage`, `ToolMessage`,
`SystemMessage`. -/
inductive Role where
  | user
  | assistant
  | tool
  | system
deriving DecidableEq, Repr

/-- One pending tool-call request carried by an assistant message:
tool name, serialized arguments, and the call identifier that the matching
tool-result message references. -/
structure ToolCall where
  name : String
  args : String
  id : String
deriving DecidableEq, Repr

/-- One conversational message. `tool_calls` is nonempty only on assistant
messages that request tool execution; `tool_call_id` is set only on
tool-result messages and names the assistant call being answered. -/
structure Message where
  role : Role
  content : String
  tool_calls : List ToolCall := []
  tool_call_id : Option String := none
deriving DecidableEq, Repr

/-- Does message `r` answer one of the tool calls pending on message `m`?
True when `r` is a tool-result whose `tool_call_id` matches the id of some
call in `m.tool_calls`. -/
def is_result_of (m r : Message) : Bool :=
  r.role == Role.tool && m.tool_calls.any fun c => r.tool_call_id == some c.id

/-- Drop the oldest message of the history as one unit: when the head is an
assistant message with pending tool calls, its tool-result messages are
dropped together with it, so that a tool-result is never left behind without
the assistant call it answers. -/
def drop_oldest_unit : List Message → List Message
  | [] => []
  | m :: rest =>
    if m.role = Role.assistant ∧ m.tool_calls ≠ [] then
      rest.filter fun r => !(is_result_of m r)
    else
      rest

/-- Fuel-bounded truncation loop: while the history exceeds the budget, drop
the oldest unit. The fuel is instantiated with the history length, which
suffices because every iteration on an over-budget history removes at least
one message. -/
def truncate_loop (budget : Nat) : Nat → List Message → List Message
  | 0, msgs => msgs
  | fuel + 1, msgs =>
    if msgs.length ≤ budget then msgs
    else truncate_loop budget fuel (drop_oldest_unit msgs)

/-- Modelled from the spec: `truncate_messages_safely` is imported by
`main.py` and `04_mcp_http_external_package.py` from
`langgraph_mcp/streaming_utils.py`, which is not among the sources. Per the
Context Window Manager contract (spec section 4.2): drop existing system
messages; if the remaining history exceeds the budget, drop oldest
non-system messages first, never splitting a tool-call/tool-result pair —
if dropping would orphan a tool-result's corresponding assistant call, both
are dropped together as a unit. The budget counts messages. -/
def truncate_messages_safely (history : List Message) (budget : Nat) : List Message :=
  let kept := history.filter fun m => !(m.role == Role.system)
  truncate_loop budget kept.length kept

/-- The system prompt of `main.py` (`create_assistant`, lines 49-56). -/
def system_prompt : Message :=
  { role := Role.system,
    content := "\n        When using tools, please adhere to the following order.\n            - First use word tool_x, \n            - Always follow that with using tool_y.\n            - ... \n            " }

/-- The system prompt of `04_mcp_http_external_package.py` (`create_assistant`,
lines 46-103). -/
def system_prompt_04 : Message :=
  { role := Role.system,
    content := "You are a helpful AI assistant for the website \"Vibify.up.railway.app\". \n" ++
      "When greeting users, mention the website link.\n" ++
      "This is a Spotify clone, but do not mention that. \n" ++
      "You have access to the following types of tools:\n" ++
      "1. Supabase Database Tools Usage (via remote HTTP MCP):\n" ++
      "- list_tables: See what tables exist in the database\n" ++
      "- execute_sql: Run SQL queries to get data (SELECT statements only)\n" ++
      "- search_docs: Search Supabase documentation can not be used for helped in this project.\n" ++
      "- Other management tools: migrations, logs, advisors, etc.\n" ++
      "Best Practices:\n" ++
      "- CRITICAL!!! Database results contain technical IDs. If the result of query/queries is/are technical, " ++
      "try really hard to find a connection with another table or column in order to make the answer " ++
      "more functionally sound and non-technical-user friendly.\n" ++
      "- CRITICAL: When querying songs table or joining with songs table, you MUST filter by is_public = true in the SAME query. " ++
      "Never query other tables first to get song IDs and then check songs separately. Always JOIN songs table and filter by is_public = true in one query.\n" ++
      "- CRITICAL: When querying the genres table by genre name, you MUST use ILIKE instead of = due to capitalization differences in the table. " ++
      "For example: WHERE genres.name ILIKE jazz NOT WHERE genres.name = Jazz. This ensures case-insensitive matching.\n" ++
      "- CRITICAL: If after a query you get something technical, reflect on yourself and try to connect with another table (new tool call), " ++
      "to get a better more functional answer.\n" ++
      "- CRITICAL: Start by listing tables if you need to understand the database structure\n" ++
      "- CRITICAL: When you do multiple tool calls, or multiple queries, make sure these CRITICAL steps are always applied to the final result.\n" ++
      "- Use execute_sql to query data - be specific in your queries\n" ++
      "- Always check table names before querying them\n" ++
      "- docs tool contains no relevant information regarding vibify project.\n" ++
      "- When mentioning 1-5 songs, always provide shareable links in this format: " ++
      "https://vibify.up.railway.app/share/song/\x7bsong_id_uuid\x7d " ++
      "Replace \x7bsong_id_uuid\x7d with the actual song ID from the databases songs table.\n" ++
      "- When listing more than 5 songs, use bullet points format without individual links:\n" ++
      "- Song Title 1 by Artist 1\n" ++
      "- Song Title 2 by Artist 2\n" ++
      "(Maximum 5 songs shown)\n" ++
      "Approach:\n" ++
      "1. Understand what the user wants\n" ++
      "2. Use the appropriate tools in logical order\n" ++
      "3. Provide clear, functional and non-technical responses based on tool results\n" ++
      "Formatting Guidelines:\n" ++
      "- Use line breaks for readability (especially when listing multiple items)\n" ++
      "- Do NOT use markdown formatting (**bold**, *italic*, [links](url), etc.)\n" ++
      "- Write URLs as plain text (e.g., \"Link: https://example.com\" not \"[text](url)\")\n" ++
      "- Do NOT use emojis" }

/-- `create_assistant` from `main.py` (lines 45-66) and
`04_mcp_http_external_package.py` (lines 42-117); the two copies differ only
in the system-prompt constant they close over, so the prompt is a parameter
here. The returned node: truncate the state messages, prepend the system
prompt, invoke the tool-bound reasoning engine, and return the update
`\x7b"messages": [response]\x7d`, which the `add_messages` reducer of
`MessageState` merges by appending the one new message to the state. The
reasoning engine `llm_with_tools.ainvoke` is opaque and passed as a
function. -/
def create_assistant (sys_prompt : Message) (llm_with_tools : List Message → Message)
    (budget : Nat) (state_messages : List Message) : List Message :=
  state_messages ++
    [llm_with_tools (sys_prompt :: truncate_messages_safely state_messages budget)]

/-- Nodes of the graph built by `build_graph` in `main.py` (lines 69-83) and
`04_mcp_http_external_package.py` (lines 120-134): `START`, the `assistant`
node, the `tools` node, and the terminal `END`. -/
inductive Node where
  | START
  | assistant
  | tools
  | END
deriving DecidableEq, Repr

/-- `langgraph.prebuilt.tools_condition` as wired by
`builder.add_conditional_edges("assistant", tools_condition)`: route to the
`tools` node when the last message is an assistant message carrying pending
tool calls, to `END` otherwise. -/
def tools_condition (messages : List Message) : Node :=
  match messages.getLast? with
  | some m => if m.role = Role.assistant ∧ m.tool_calls ≠ [] then Node.tools else Node.END
  | none => Node.END

/-- `langgraph.prebuilt.ToolNode` as wired by `builder.add_node("tools",
ToolNode(tools))`: execute every pending call of the last assistant message,
producing one tool-result message per call in call order; tool execution
itself is the opaque parameter `exec_tool`. -/
def tool_node (exec_tool : ToolCall → String) (messages : List Message) : List Message :=
  match messages.getLast? with
  | some m => m.tool_calls.map fun c =>
      { role := Role.tool, content := exec_tool c, tool_calls := [], tool_call_id := some c.id }
  | none => []

/-- One transition of the compiled graph of `build_graph` (`main.py` lines
69-83): `START → assistant` (add_edge), `assistant → tools_condition` of the
updated messages (add_conditional_edges), `tools → assistant` (add_edge),
and no transition out of `END`. -/
def graph_step (sys_prompt : Message) (llm_with_tools : List Message → Message)
    (budget : Nat) (exec_tool : ToolCall → String) :
    Node × List Message → Option (Node × List Message)
  | (Node.START, msgs) => some (Node.assistant, msgs)
  | (Node.assistant, msgs) =>
    let msgs2 := create_assistant sys_prompt llm_with_tools budget msgs
    some (tools_condition msgs2, msgs2)
  | (Node.tools, msgs) => some (Node.assistant, msgs ++ tool_node exec_tool msgs)
  | (Node.END, _) => none

/-- One MCP backend descriptor, mirroring the server dictionaries of
`setup_langgraph_app`: stdio backends carry a command and arguments, HTTP
backends a URL; both carry a transport. -/
structure ServerConfig where
  command : Option String := none
  args : List String := []
  url : Option String := none
  transport : String
deriving DecidableEq, Repr

/-- A tool descriptor as reported by `client.get_tools()`: name and
description (`main.py` lines 140-141 print exactly these fields). -/
structure Tool where
  name : String
  description : String
deriving DecidableEq, Repr

/-- The compiled agent returned by `build_graph`, recorded by the tool set
bound to it; the node/edge semantics of the compiled graph is embedded by
`graph_step`. -/
structure App where
  tools : List Tool
deriving DecidableEq, Repr

/-- `build_graph` from `main.py` (lines 69-83): binds the aggregated tools to
the reasoning engine and compiles the `START/assistant/tools` graph. -/
def build_graph (tools : List Tool) : App := { tools := tools }

/-- `validate_servers` from `main.py` (lines 86-97) and
`04_mcp_http_external_package.py` (lines 137-154): probe each backend in
order by constructing a client and listing its tools; a probe that raises
(`Except.error`) is logged and the backend skipped, a probe that returns
(`Except.ok`) keeps the backend with its original configuration. -/
def validate_servers (probe : String → ServerConfig → Except String Unit) :
    List (String × ServerConfig) → List (String × ServerConfig)
  | [] => []
  | (server_name, server_config) :: rest =>
    match probe server_name server_config with
    | Except.ok _ => (server_name, server_config) :: validate_servers probe rest
    | Except.error _ => validate_servers probe rest

/-- `setup_langgraph_app` from `main.py` (lines 100-146): validate the
configured backends; when at least one survives, aggregate its tools
(`get_tools`, opaque) and build the graph; when none survives, raise
`RuntimeError("No MCP servers available")`, modelled as `Except.error`. -/
def setup_langgraph_app (probe : String → ServerConfig → Except String Unit)
    (get_tools : List (String × ServerConfig) → List Tool)
    (all_servers : List (String × ServerConfig)) : Except String App :=
  let successful_servers := validate_servers probe all_servers
  if successful_servers ≠ [] then Except.ok (build_graph (get_tools successful_servers))
  else Except.error "No MCP servers available"

/-- The server dictionary of `setup_langgraph_app` in `main.py` (lines
105-130): two local stdio MCP servers plus one external stdio package. -/
def all_servers_main : List (String × ServerConfig) :=
  [("local_math",
    { command := some "python", args := ["local_mcp_servers/math_server.py"],
      transport := "stdio" }),
   ("local_weather",
    { command := some "python", args := ["local_mcp_servers/weather_server.py"],
      transport := "stdio" }),
   ("office_word",
    { command := some "uv",
      args := ["tool", "run", "--from", "office-word-mcp-server", "word_mcp_server"],
      transport := "stdio" })]

/-- The server dictionary of `setup_langgraph_app` in
`04_mcp_http_external_package.py` (lines 161-174): the one remote HTTP
backend (the code-explorer entry is commented out). -/
def all_servers_04 : List (String × ServerConfig) :=
  [("supabase",
    { url := some "https://mcp-workshop-server.up.railway.app",
      transport := "streamable_http" })]

/-- Outcome of one backend liveness probe, refining the `Except` model:
`ok` and `fail` are a probe that returns (tools listed, or an exception the
`try/except` catches); `hang` is an `await test_client.get_tools()` that
never returns — the source wraps the await in no timeout. -/
inductive ProbeOutcome where
  | ok
  | fail
  | hang
deriving DecidableEq, Repr

/-- The sequential-await semantics of `validate_servers`: backends are probed
one after another in the event loop, so a probe that hangs means the loop
never resumes and validation as a whole never completes (`none`); later
backends are then never probed. -/
def validate_servers_seq (probe : String → ServerConfig → ProbeOutcome) :
    List (String × ServerConfig) → Option (List (String × ServerConfig))
  | [] => some []
  | (server_name, server_config) :: rest =>
    match probe server_name server_config with
    | ProbeOutcome.ok =>
      (validate_servers_seq probe rest).map fun l => (server_name, server_config) :: l
    | ProbeOutcome.fail => validate_servers_seq probe rest
    | ProbeOutcome.hang => none

/-- Modelled from the spec: the aggregation step `client.get_tools()` of
`MultiServerMCPClient` (`main.py` line 137) is library code not among the
sources; per spec section 4.1, `aggregate` merges the tool sets of all
surviving backends into one ordered sequence, in backend registration
order. -/
def aggregate (tools_of : String → List Tool) (servers : List (String × ServerConfig)) :
    List Tool :=
  servers.flatMap fun p => tools_of p.1

/-- Modelled from the spec: the registry mapping from tool name to tool that
the compiled graph dispatches on (built by `ToolNode(tools)` and
`llm.bind_tools(tools)`, library code not among the sources); per spec
sections 4.1 and 9, tool-name collisions are passed through as-is and the
last-registered tool wins, as in a dict built left to right. -/
def registry_lookup (tools : List Tool) (tool_name : String) : Option Tool :=
  tools.foldl (fun acc t => if t.name = tool_name then some t else acc) none

/-- `multiply` from `01_no_mcp_langgraph_agent.py` (lines 24-31). -/
def multiply (a b : Int) : Int := a * b

/-- `add` from `01_no_mcp_langgraph_agent.py` (lines 34-41). -/
def add (a b : Int) : Int := a + b

/-- Round-half-to-even of the fraction `N / D` (for `D ≠ 0`) to a natural
number: take the floor, and go up when the remainder exceeds half of `D` or
equals half of `D` with an odd floor (the IEEE-754 tie rule). -/
def rhe_div (N D : Nat) : Nat :=
  let f := N / D
  let r := N % D
  if 2 * r < D then f
  else if D < 2 * r then f + 1
  else if f % 2 = 0 then f else f + 1

/-- Is `num / den < 2 ^ k`, computed integrally (`num`, `den` positive). -/
def lt_pow2 (num den : Nat) (k : Int) : Bool :=
  if 0 ≤ k then num < den * 2 ^ k.natAbs else num * 2 ^ (-k).natAbs < den

/-- The floor of the base-2 logarithm of `num / den` for positive `num` and
`den`: the bit-length difference, corrected down by one when the quotient
falls below that power of two. -/
def floor_log2 (num den : Nat) : Int :=
  let e0 : Int := (Nat.log2 num : Int) - (Nat.log2 den : Int)
  if lt_pow2 num den e0 then e0 - 1 else e0

/-- IEEE-754 binary64 rounding (to nearest, ties to even) of the positive
rational `num / den`, expressed as the exact rational value of the resulting
double; `none` is overflow beyond the double range. The significand is the
quotient scaled to `52 - e` fractional bits, where `e` is the exponent
clamped at `-1022` (subnormal range). Overflow — a rounded magnitude of at
least `2 ^ 1024` — is tested in exponent form: it happens exactly when
`e ≥ 1024` (the quotient itself is at least `2 ^ 1024`), or `e = 1023` and
rounding carried the significand up to `2 ^ 53`. -/
def round64_pos (num den : Nat) : Option ℚ :=
  let e : Int := max (floor_log2 num den) (-1022)
  let shift : Int := 52 - e
  let n : Nat := if 0 ≤ shift
    then rhe_div (num * 2 ^ shift.natAbs) den
    else rhe_div num (den * 2 ^ (-shift).natAbs)
  if 1024 ≤ e ∨ (e = 1023 ∧ 2 ^ 53 ≤ n) then none
  else if 0 ≤ shift then some ((n : ℚ) / ((2 ^ shift.natAbs : Nat) : ℚ))
  else some ((n : ℚ) * ((2 ^ (-shift).natAbs : Nat) : ℚ))

/-- `divide` from `01_no_mcp_langgraph_agent.py` (lines 44-51): `return a / b`
with no guard on `b`. CPython int true division produces an IEEE-754
binary64 double: `b = 0` raises `ZeroDivisionError`; otherwise the quotient
is rounded to the nearest double (ties to even), returned here as the exact
rational value of that double, and `OverflowError` is raised when the
rounded magnitude reaches `2 ^ 1024`. The sign is applied to the rounded
magnitude, as rounding is symmetric. -/
def divide (a b : Int) : Except String ℚ :=
  if b = 0 then Except.error "ZeroDivisionError"
  else if a = 0 then Except.ok 0
  else match round64_pos a.natAbs b.natAbs with
    | some q => Except.ok (if (0 < a) = (0 < b) then q else -q)
    | none => Except.error "OverflowError"

/-- The tool list bound to the reasoning engine in
`01_no_mcp_langgraph_agent.py` (lines 144-148): `[add, multiply, divide]`,
described by each function's docstring. -/
def local_tools : List Tool :=
  [{ name := "add", description := "Adds a and b." },
   { name := "multiply", description := "Multiply a and b." },
   { name := "divide", description := "Divide a and b." }]

/-- `MessageState` of `01_no_mcp_langgraph_agent.py` (lines 55-57): the
message list plus the math-classification flag, defaulting to false. -/
structure MState where
  messages : List Message
  is_math_question : Bool := false
deriving DecidableEq, Repr

/-- The canned refusal appended by `validate_math_question` (lines 93-97). -/
def refusal_message : Message :=
  { role := Role.assistant,
    content := "I can only help with math questions (addition, multiplication, or division). Please ask a math question." }

/-- `validate_math_question` from `01_no_mcp_langgraph_agent.py` (lines
72-99): classify the last message's content with the structured-output
classifier (opaque parameter `classify_math`, the
`llm_structured.invoke(prompt).is_math_question` field), store the result in
the state, and on a non-math question append the canned refusal. The source
indexes `state.messages[-1]` and would raise on an empty history; the
theorems below only use nonempty histories, and the empty case is modelled
as the unchanged state. -/
def validate_math_question (classify_math : String → Bool) (s : MState) : MState :=
  match s.messages.getLast? with
  | none => s
  | some last_message =>
    if classify_math last_message.content then
      { s with is_math_question := true }
    else
      { s with is_math_question := false, messages := s.messages ++ [refusal_message] }

/-- Nodes of the gated graph of `01_no_mcp_langgraph_agent.py` `build_graph`
(lines 109-130). -/
inductive Node01 where
  | START
  | validate_math
  | assistant
  | tools
  | END
deriving DecidableEq, Repr

/-- `route_after_validation` from `01_no_mcp_langgraph_agent.py` (lines
102-106): to `assistant` on a math question, to `END` otherwise. -/
def route_after_validation (s : MState) : Node01 :=
  if s.is_math_question then Node01.assistant else Node01.END

/-- `tools_condition` routing for the gated graph (same library predicate as
`tools_condition`, targeting `Node01`). -/
def tools_condition01 (messages : List Message) : Node01 :=
  match messages.getLast? with
  | some m => if m.role = Role.assistant ∧ m.tool_calls ≠ [] then Node01.tools else Node01.END
  | none => Node01.END

/-- One transition of the gated graph (`build_graph`, lines 109-130):
`START → validate_math` (add_edge), `validate_math → route_after_validation`
(add_conditional_edges), `assistant → tools_condition`
(add_conditional_edges), `tools → assistant` (add_edge). The `assistant`
node (lines 67-69) invokes the tool-bound reasoning engine and the
`add_messages` reducer appends its one response. -/
def step01 (classify_math : String → Bool) (llm_with_tools : List Message → Message)
    (exec_tool : ToolCall → String) : Node01 × MState → Option (Node01 × MState)
  | (Node01.START, s) => some (Node01.validate_math, s)
  | (Node01.validate_math, s) =>
    let s2 := validate_math_question classify_math s
    some (route_after_validation s2, s2)
  | (Node01.assistant, s) =>
    let s2 : MState := { s with messages := s.messages ++ [llm_with_tools s.messages] }
    some (tools_condition01 s2.messages, s2)
  | (Node01.tools, s) =>
    some (Node01.assistant, { s with messages := s.messages ++ tool_node exec_tool s.messages })
  | (Node01.END, _) => none

/-- Run the gated graph for at most `fuel` transitions from a node and state,
returning the sequence of nodes visited and the final state. -/
def run01 (classify_math : String → Bool) (llm_with_tools : List Message → Message)
    (exec_tool : ToolCall → String) : Nat → Node01 × MState → List Node01 × MState
  | 0, (n, s) => ([n], s)
  | fuel + 1, (n, s) =>
    match step01 classify_math llm_with_tools exec_tool (n, s) with
    | none => ([n], s)
    | some next =>
      let r := run01 classify_math llm_with_tools exec_tool fuel next
      (n :: r.1, r.2)

/-- Shared concrete data for evaluating the theorems on closed inputs. -/
def demo_call : ToolCall := { name := "add", args := "a=3 b=4", id := "call1" }

def demo_user : Message := { role := Role.user, content := "Add 3 and 4" }

def demo_assistant_call : Message :=
  { role := Role.assistant, content := "", tool_calls := [demo_call] }

def demo_tool_result : Message :=
  { role := Role.tool, content := "7", tool_call_id := some demo_call.id }

def demo_reply : Message := { role := Role.assistant, content := "The result is 7" }

def demo_config : ServerConfig := { transport := "stdio" }

/-- A probe under which the backend named "slow" hangs and every other
backend answers successfully. -/
def demo_probe_hang : String → ServerConfig → ProbeOutcome :=
  fun n _ => if n = "slow" then ProbeOutcome.hang else ProbeOutcome.ok

-- Basic membership lemmas about the truncation pipeline.

theorem mem_drop_oldest_unit {x : Message} {msgs : List Message}
    (h : x ∈ drop_oldest_unit msgs) : x ∈ msgs := by
  cases msgs with
  | nil => exact absurd h (List.not_mem_nil x)
  | cons m rest =>
    unfold drop_oldest_unit at h
    by_cases hc : m.role = Role.assistant ∧ m.tool_calls ≠ []
    · simp only [if_pos hc] at h
      exact List.mem_cons_of_mem m (List.mem_of_mem_filter h)
    · simp only [if_neg hc] at h
      exact List.mem_cons_of_mem m h

theorem mem_truncate_loop {x : Message} {budget fuel : Nat} {msgs : List Message}
    (h : x ∈ truncate_loop budget fuel msgs) : x ∈ msgs := by
  induction fuel generalizing msgs with
  | zero => exact h
  | succ n ih =>
    unfold truncate_loop at h
    by_cases hb : msgs.length ≤ budget
    · rw [if_pos hb] at h; exact h
    · simp only [if_neg hb] at h
      exact mem_drop_oldest_unit (ih h)

theorem mem_truncate {x : Message} {H : List Message} {B : Nat}
    (h : x ∈ truncate_messages_safely H B) : x ∈ H := by
  unfold truncate_messages_safely at h
  exact List.mem_of_mem_filter (mem_truncate_loop h)

theorem truncate_no_system {x : Message} {H : List Message} {B : Nat}
    (h : x ∈ truncate_messages_safely H B) : x.role ≠ Role.system := by
  unfold truncate_messages_safely at h
  have hf := mem_truncate_loop h
  have hkeep := List.of_mem_filter hf
  intro hsys
  rw [hsys] at hkeep
  simp at hkeep

theorem length_drop_oldest_unit_lt {msgs : List Message} (h : msgs ≠ []) :
    (drop_oldest_unit msgs).length < msgs.length := by
  cases msgs with
  | nil => exact absurd rfl h
  | cons m rest =>
    unfold drop_oldest_unit
    by_cases hc : m.role = Role.assistant ∧ m.tool_calls ≠ []
    · simp only [if_pos hc]
      exact Nat.lt_succ_of_le (List.length_filter_le _ rest)
    · simp only [if_neg hc]
      exact Nat.lt_succ_self rest.length

theorem truncate_loop_length_le {budget : Nat} :
    ∀ fuel (msgs : List Message), msgs.length ≤ fuel + budget →
      (truncate_loop budget fuel msgs).length ≤ budget := by
  intro fuel
  induction fuel with
  | zero => intro msgs h; simpa [truncate_loop] using h
  | succ n ih =>
    intro msgs h
    unfold truncate_loop
    by_cases hb : msgs.length ≤ budget
    · simpa [if_pos hb] using hb
    · simp only [if_neg hb]
      apply ih
      have hne : msgs ≠ [] := by
        intro hnil
        exact hb (by simp [hnil])
      have hlt := length_drop_oldest_unit_lt hne
      omega

theorem truncate_length_le (H : List Message) (B : Nat) :
    (truncate_messages_safely H B).length ≤ B := by
  unfold truncate_messages_safely
  exact truncate_loop_length_le _ _ (Nat.le_add_right _ _)

theorem truncate_loop_of_length_le {budget fuel : Nat} {msgs : List Message}
    (h : msgs.length ≤ budget) : truncate_loop budget fuel msgs = msgs := by
  cases fuel with
  | zero => rfl
  | succ n => simp [truncate_loop, if_pos h]

theorem truncate_of_compliant {H : List Message} {B : Nat}
    (hs : ∀ m ∈ H, m.role ≠ Role.system) (hb : H.length ≤ B) :
    truncate_messages_safely H B = H := by
  unfold truncate_messages_safely
  have hf : H.filter (fun m => !(m.role == Role.system)) = H := by
    apply List.filter_eq_self.mpr
    intro m hm
    simpa using hs m hm
  rw [hf]
  exact truncate_loop_of_length_le hb

theorem truncate_idem (H : List Message) (B : Nat) :
    truncate_messages_safely (truncate_messages_safely H B) B
      = truncate_messages_safely H B := by
  apply truncate_of_compliant
  · intro m hm
    exact truncate_no_system hm
  · exact truncate_length_le H B

theorem is_result_of_eq_true {m r : Message} :
    is_result_of m r = true ↔
      r.role = Role.tool ∧ ∃ c ∈ m.tool_calls, r.tool_call_id = some c.id := by
  simp [is_result_of, List.any_eq_true]

theorem drop_oldest_unit_no_orphan {r a : Message} {msgs : List Message}
    (hr : r ∈ drop_oldest_unit msgs) (hrRole : r.role = Role.tool)
    (ha : a ∈ msgs) (haRole : a.role = Role.assistant)
    (hmatch : ∃ c ∈ a.tool_calls, r.tool_call_id = some c.id) :
    a ∈ drop_oldest_unit msgs := by
  cases msgs with
  | nil => exact absurd hr (List.not_mem_nil r)
  | cons m rest =>
    unfold drop_oldest_unit at hr ⊢
    by_cases hc : m.role = Role.assistant ∧ m.tool_calls ≠ []
    · simp only [if_pos hc] at hr ⊢
      have hmem := List.mem_filter.mp hr
      rcases List.mem_cons.mp ha with hma | hma
      · exfalso
        have hres : is_result_of m r = true := by
          rw [is_result_of_eq_true]
          exact ⟨hrRole, hma ▸ hmatch⟩
        have := hmem.2
        simp [hres] at this
      · apply List.mem_filter.mpr
        refine ⟨hma, ?_⟩
        have : is_result_of m a = false := by
          simp [is_result_of, haRole]
        simp [this]
    · simp only [if_neg hc] at hr ⊢
      rcases List.mem_cons.mp ha with hma | hma
      · exfalso
        apply hc
        constructor
        · rw [← hma]; exact haRole
        · rw [← hma]
          rcases hmatch with ⟨c, hcmem, _⟩
          intro hnil
          rw [hnil] at hcmem
          exact List.not_mem_nil c hcmem
      · exact hma

theorem truncate_loop_no_orphan {budget : Nat} {r a : Message}
    (hrRole : r.role = Role.tool) (haRole : a.role = Role.assistant)
    (hmatch : ∃ c ∈ a.tool_calls, r.tool_call_id = some c.id) :
    ∀ fuel (msgs : List Message), r ∈ truncate_loop budget fuel msgs →
      a ∈ msgs → a ∈ truncate_loop budget fuel msgs := by
  intro fuel
  induction fuel with
  | zero => intro msgs _ ha; exact ha
  | succ n ih =>
    intro msgs hr ha
    unfold truncate_loop at hr ⊢
    by_cases hb : msgs.length ≤ budget
    · simpa [if_pos hb] using ha
    · simp only [if_neg hb] at hr ⊢
      have hrdrop : r ∈ drop_oldest_unit msgs := mem_truncate_loop hr
      have hadrop : a ∈ drop_oldest_unit msgs :=
        drop_oldest_unit_no_orphan hrdrop hrRole ha haRole hmatch
      exact ih _ hr hadrop

-- Lemmas about backend validation.

theorem probe_true_iff {e : Except String Unit} :
    (match e with | Except.ok _ => true | Except.error _ => false) = true ↔
      e = Except.ok () := by
  cases e with
  | ok u => cases u; simp
  | error s => simp

theorem validate_servers_eq_filter (probe : String → ServerConfig → Except String Unit)
    (l : List (String × ServerConfig)) :
    validate_servers probe l = l.filter fun p =>
      match probe p.1 p.2 with
      | Except.ok _ => true
      | Except.error _ => false := by
  induction l with
  | nil => rfl
  | cons head rest ih =>
    obtain ⟨n, c⟩ := head
    unfold validate_servers
    cases hp : probe n c with
    | ok u => simp [List.filter_cons, hp, ih]
    | error e => simp [List.filter_cons, hp, ih]

theorem mem_validate_servers {probe : String → ServerConfig → Except String Unit}
    {p : String × ServerConfig} {l : List (String × ServerConfig)} :
    p ∈ validate_servers probe l ↔ p ∈ l ∧ probe p.1 p.2 = Except.ok () := by
  rw [validate_servers_eq_filter, List.mem_filter, probe_true_iff]

/-- C7: backend validation recovers from per-backend probe failures: the
result is a sublist of the input (each surviving backend keeping its
original configuration), and a backend is kept exactly when its own probe
returns rather than raises, independently of the other backends;
`validate_servers` itself is total and never raises. -/
theorem validate_servers_recovers (probe : String → ServerConfig → Except String Unit)
    (all_servers : List (String × ServerConfig)) :
    List.Sublist (validate_servers probe all_servers) all_servers ∧
    ∀ p ∈ all_servers,
      (p ∈ validate_servers probe all_servers ↔ probe p.1 p.2 = Except.ok ()) := by
  constructor
  · rw [validate_servers_eq_filter]
    exact List.filter_sublist _
  · intro p hp
    rw [mem_validate_servers]
    exact ⟨And.right, fun h => ⟨hp, h⟩⟩

theorem validate_servers_recovers_witness :
    ("good", demo_config) ∈ validate_servers
      (fun n _ => if n = "good" then Except.ok () else Except.error "probe raised")
      [("bad", demo_config), ("good", demo_config)] := by
  have h := (validate_servers_recovers
    (fun n _ => if n = "good" then Except.ok () else Except.error "probe raised")
    [("bad", demo_config), ("good", demo_config)]).2
      ("good", demo_config) (by simp)
  exact h.mpr (by simp)

/-- C2: if zero backends pass the startup liveness probe,
`setup_langgraph_app` fails with the fatal configuration error
`RuntimeError("No MCP servers available")` and no agent is constructed (so
no reasoning step can ever run); if at least one backend passes, it
succeeds with a built app. -/
theorem setup_requires_validated_backend
    (probe : String → ServerConfig → Except String Unit)
    (get_tools : List (String × ServerConfig) → List Tool)
    (all_servers : List (String × ServerConfig)) :
    ((∀ p ∈ all_servers, probe p.1 p.2 ≠ Except.ok ()) →
      setup_langgraph_app probe get_tools all_servers
        = Except.error "No MCP servers available") ∧
    ((∃ p ∈ all_servers, probe p.1 p.2 = Except.ok ()) →
      ∃ app, setup_langgraph_app probe get_tools all_servers = Except.ok app) := by
  constructor
  · intro h
    have hnil : validate_servers probe all_servers = [] := by
      rw [validate_servers_eq_filter]
      apply List.filter_eq_nil_iff.mpr
      intro p hp
      rw [probe_true_iff]
      exact h p hp
    simp [setup_langgraph_app, hnil]
  · rintro ⟨p, hp, hok⟩
    have hmem : p ∈ validate_servers probe all_servers :=
      mem_validate_servers.mpr ⟨hp, hok⟩
    have hne : validate_servers probe all_servers ≠ [] := List.ne_nil_of_mem hmem
    exact ⟨build_graph (get_tools (validate_servers probe all_servers)),
      by simp [setup_langgraph_app, hne]⟩

theorem setup_requires_validated_backend_witness :
    setup_langgraph_app (fun _ _ => Except.error "connection refused")
        (fun _ => []) all_servers_04 = Except.error "No MCP servers available" ∧
    ∃ app, setup_langgraph_app (fun _ _ => Except.ok ()) (fun _ => [])
        all_servers_04 = Except.ok app := by
  constructor
  · exact (setup_requires_validated_backend _ _ _).1 (by intro p hp; simp)
  · exact (setup_requires_validated_backend _ _ _).2
      ⟨("supabase",
        { url := some "https://mcp-workshop-server.up.railway.app",
          transport := "streamable_http" }),
       by simp [all_servers_04], rfl⟩

/-- C8: when two validated backends each expose a tool with the same name,
the aggregated registry resolves that name to exactly one entry: the tool
of the last-registered backend (last-registered wins). -/
theorem collision_last_registered_wins
    (n1 n2 : String) (c1 c2 : ServerConfig) (tools_of : String → List Tool)
    (t1 t2 : Tool)
    (h1 : tools_of n1 = [t1]) (h2 : tools_of n2 = [t2])
    (hn1 : t1.name = "search") (hn2 : t2.name = "search") :
    registry_lookup (aggregate tools_of [(n1, c1), (n2, c2)]) "search" = some t2 := by
  simp [aggregate, registry_lookup, h1, h2, hn1, hn2]

theorem collision_last_registered_wins_witness :
    registry_lookup
      (aggregate
        (fun n => if n = "backend_one"
          then [{ name := "search", description := "first" }]
          else [{ name := "search", description := "second" }])
        [("backend_one", demo_config), ("backend_two", demo_config)]) "search"
      = some { name := "search", description := "second" } := by
  exact collision_last_registered_wins "backend_one" "backend_two"
    demo_config demo_config _
    { name := "search", description := "first" }
    { name := "search", description := "second" }
    (by simp) (by simp) rfl rfl

/-- C9 counterexample: under the sequential-await semantics of
`validate_servers` (no per-backend timeout in the source), one hanging
backend makes validation never complete, so the remaining live backend —
whose own probe succeeds — is never validated: the claimed isolation fails
at this concrete input. -/
theorem hanging_backend_blocks_validation :
    demo_probe_hang "live" demo_config = ProbeOutcome.ok ∧
    demo_probe_hang "slow" demo_config = ProbeOutcome.hang ∧
    validate_servers_seq demo_probe_hang
      [("slow", demo_config), ("live", demo_config)] = none := by
  refine ⟨by decide, by decide, by decide⟩

/-- C9 amended: backend probes run sequentially with no per-backend timeout.
Whenever every probe returns (successfully or with a caught exception),
validation completes and keeps exactly the backends whose own probe
succeeded — so success/failure isolation holds among returning probes — but
a hanging probe blocks the probing of all later backends (see the
counterexample). -/
theorem validate_seq_completes_without_hang
    (probe : String → ServerConfig → ProbeOutcome)
    (all_servers : List (String × ServerConfig))
    (h : ∀ p ∈ all_servers, probe p.1 p.2 ≠ ProbeOutcome.hang) :
    validate_servers_seq probe all_servers
      = some (all_servers.filter fun p => probe p.1 p.2 == ProbeOutcome.ok) := by
  induction all_servers with
  | nil => rfl
  | cons head rest ih =>
    obtain ⟨n, c⟩ := head
    have hh := h (n, c) (List.mem_cons_self _ _)
    have hrest : ∀ p ∈ rest, probe p.1 p.2 ≠ ProbeOutcome.hang :=
      fun p hp => h p (List.mem_cons_of_mem _ hp)
    unfold validate_servers_seq
    cases hp : probe n c with
    | ok => simp [List.filter_cons, hp, ih hrest]
    | fail => simp [List.filter_cons, hp, ih hrest]
    | hang => exact absurd hp hh

theorem validate_seq_completes_without_hang_witness :
    validate_servers_seq (fun _ _ => ProbeOutcome.ok) all_servers_04
      = some all_servers_04 := by
  have h := validate_seq_completes_without_hang (fun _ _ => ProbeOutcome.ok)
    all_servers_04 (fun p hp => by simp)
  simpa [all_servers_04] using h

/-- C10 counterexample: the b ≠ 0 branch of `divide` does not return the
exact quotient: CPython float true division of 1 by 3 yields the binary64
double 6004799503160661 / 2 ^ 54, which differs from the rational 1 / 3;
and for a quotient beyond the double range (here 2 ^ 1100 / 1) the call
raises `OverflowError` instead of returning any value. -/
theorem divide_returns_rounded_float_not_exact :
    divide 1 3 = Except.ok ((6004799503160661 : ℚ) / 18014398509481984) ∧
    ((6004799503160661 : ℚ) / 18014398509481984) ≠ (1 : ℚ) / 3 ∧
    divide (2 ^ 1100) 1 = Except.error "OverflowError" := by
  refine ⟨?_, by norm_num, ?_⟩
  · norm_num [divide, round64_pos, floor_log2, lt_pow2, rhe_div, Nat.log2]
  · have ha : (2 ^ 1100 : Int) ≠ 0 := pow_ne_zero _ (by norm_num)
    have hnatAbs : (2 ^ 1100 : Int).natAbs = 2 ^ 1100 := by
      rw [Int.natAbs_pow]
      simp [Int.natAbs_ofNat]
    have hlog : Nat.log2 (2 ^ 1100) = 1100 := by
      rw [Nat.log2_eq_log_two, Nat.log_pow (by norm_num)]
    have hlt : lt_pow2 (2 ^ 1100) 1 1100 = false := by
      simp [lt_pow2]
    have hfl : floor_log2 (2 ^ 1100) 1 = 1100 := by
      rw [floor_log2]
      simp [hlog, Nat.log2, hlt]
    have hr : round64_pos (2 ^ 1100) 1 = none := by
      rw [round64_pos]
      simp [hfl]
    simp [divide, ha, hnatAbs, hr]

/-- C10 amended: the local `divide` tool is partial and float-valued rather
than an exact total quotient: for `b = 0` the unguarded division raises
`ZeroDivisionError` at the tool boundary, and that is the only input raising
it; for `b ≠ 0` the call either returns a binary64 double — the
correctly-rounded value of `a / b`, which can differ from the exact
quotient (see the counterexample at 1 / 3) — or raises `OverflowError`
when the rounded magnitude reaches `2 ^ 1024`; `divide` is among the tools
bound to the reasoning engine, so these branches are reachable from the
public interface. -/
theorem divide_partial_float_function :
    (∀ a : Int, divide a 0 = Except.error "ZeroDivisionError") ∧
    (∀ a b : Int, b ≠ 0 →
      (∃ q : ℚ, divide a b = Except.ok q) ∨
        divide a b = Except.error "OverflowError") ∧
    "divide" ∈ local_tools.map Tool.name := by
  refine ⟨fun _ => rfl, ?_, by simp [local_tools]⟩
  intro a b hb
  by_cases ha : a = 0
  · exact Or.inl ⟨0, by simp [divide, hb, ha]⟩
  · cases hr : round64_pos a.natAbs b.natAbs with
    | some q =>
      exact Or.inl ⟨if (0 < a) = (0 < b) then q else -q, by simp [divide, hb, ha, hr]⟩
    | none =>
      exact Or.inr (by simp [divide, hb, ha, hr])

theorem divide_partial_float_function_witness :
    divide 3 0 = Except.error "ZeroDivisionError" ∧
    ((∃ q : ℚ, divide 7 2 = Except.ok q) ∨
      divide 7 2 = Except.error "OverflowError") :=
  ⟨divide_partial_float_function.1 3,
   divide_partial_float_function.2.1 7 2 (by norm_num)⟩

/-- C3: truncation never produces an orphaned tool-result: whenever a
tool-result message is retained in the output, the assistant message of the
input history whose pending call it answers is retained as well (so a
matched pair is either kept whole or dropped whole). -/
theorem truncate_no_orphaned_tool_result
    (H : List Message) (B : Nat) (r a : Message)
    (hr : r ∈ truncate_messages_safely H B) (hrRole : r.role = Role.tool)
    (ha : a ∈ H) (haRole : a.role = Role.assistant)
    (hmatch : ∃ c ∈ a.tool_calls, r.tool_call_id = some c.id) :
    a ∈ truncate_messages_safely H B := by
  have hmem : a ∈ H.filter fun m => !(m.role == Role.system) :=
    List.mem_filter.mpr ⟨ha, by simp [haRole]⟩
  exact truncate_loop_no_orphan hrRole haRole hmatch _ _ hr hmem

theorem truncate_no_orphaned_tool_result_witness :
    demo_assistant_call ∈
      truncate_messages_safely [demo_user, demo_assistant_call, demo_tool_result] 5 := by
  exact truncate_no_orphaned_tool_result
    [demo_user, demo_assistant_call, demo_tool_result] 5
    demo_tool_result demo_assistant_call
    (by decide) (by decide) (by decide) (by decide) (by decide)

/-- C4 counterexample: a history that is already within the budget but
contains a system message is not returned unchanged — truncation always
drops existing system messages (the engine re-prepends the canonical one),
so `truncate(H, B) = H` fails for this compliant-size input. -/
theorem truncate_not_noop_on_system_message :
    ([({ role := Role.system, content := "canonical" } : Message)].length ≤ 1) ∧
    truncate_messages_safely [{ role := Role.system, content := "canonical" }] 1
      ≠ [{ role := Role.system, content := "canonical" }] := by
  decide

/-- C4 amended: truncation is a no-op on every history that is within budget
and contains no system message (system messages are unconditionally
dropped), and applying truncation twice always equals applying it once
(idempotence as a function). -/
theorem truncate_idempotent_amended :
    (∀ (H : List Message) (B : Nat),
        (∀ m ∈ H, m.role ≠ Role.system) → H.length ≤ B →
        truncate_messages_safely H B = H) ∧
    (∀ (H : List Message) (B : Nat),
        truncate_messages_safely (truncate_messages_safely H B) B
          = truncate_messages_safely H B) :=
  ⟨fun _ _ hs hb => truncate_of_compliant hs hb, truncate_idem⟩

theorem truncate_idempotent_amended_witness :
    truncate_messages_safely [demo_user, demo_reply] 2 = [demo_user, demo_reply] :=
  truncate_idempotent_amended.1 [demo_user, demo_reply] 2 (by decide) (by decide)

/-- C5: the Reasoning Step is pure and append-only: its result is the input
history extended by exactly one new assistant message, and the message list
handed to the reasoning engine is the canonical system prompt prepended to
the truncated history — since truncation drops every existing system
message, that list contains exactly one system message for every input
history, so duplicates never accumulate across turns. -/
theorem reasoning_step_pure_single_system
    (llm_with_tools : List Message → Message) (budget : Nat)
    (state_messages : List Message)
    (hrole : ∀ h, (llm_with_tools h).role = Role.assistant) :
    create_assistant system_prompt_04 llm_with_tools budget state_messages
      = state_messages ++
          [llm_with_tools (system_prompt_04 ::
            truncate_messages_safely state_messages budget)] ∧
    (system_prompt_04 :: truncate_messages_safely state_messages budget).countP
        (fun m => m.role == Role.system) = 1 ∧
    (llm_with_tools (system_prompt_04 ::
        truncate_messages_safely state_messages budget)).role = Role.assistant := by
  refine ⟨rfl, ?_, hrole _⟩
  rw [List.countP_cons]
  have h0 : (truncate_messages_safely state_messages budget).countP
      (fun m => m.role == Role.system) = 0 := by
    rw [List.countP_eq_zero]
    intro m hm
    simp [truncate_no_system hm]
  rw [h0]
  simp [system_prompt_04]

theorem reasoning_step_pure_single_system_witness :
    (system_prompt_04 ::
        truncate_messages_safely [demo_user, system_prompt_04] 5).countP
      (fun m => m.role == Role.system) = 1 :=
  (reasoning_step_pure_single_system (fun _ => demo_reply) 5
    [demo_user, system_prompt_04] (fun _ => rfl)).2.1

/-- C1: in the compiled graph, the only edge out of the `tools` node goes
back to the `assistant` (reasoning) node — tool outputs are never routed to
`END` directly — and a reasoning step transitions to `END` exactly when the
assistant message produced by the reasoning engine carries no pending tool
calls. -/
theorem engine_loops_to_reasoning_and_terminates
    (sys_prompt : Message) (llm_with_tools : List Message → Message)
    (budget : Nat) (exec_tool : ToolCall → String)
    (hrole : ∀ h, (llm_with_tools h).role = Role.assistant) :
    (∀ msgs, graph_step sys_prompt llm_with_tools budget exec_tool (Node.tools, msgs)
        = some (Node.assistant, msgs ++ tool_node exec_tool msgs)) ∧
    (∀ msgs,
      ((graph_step sys_prompt llm_with_tools budget exec_tool
          (Node.assistant, msgs)).map Prod.fst = some Node.END
        ↔ (llm_with_tools (sys_prompt ::
            truncate_messages_safely msgs budget)).tool_calls = [])) := by
  constructor
  · intro msgs
    rfl
  · intro msgs
    by_cases htc : (llm_with_tools (sys_prompt ::
        truncate_messages_safely msgs budget)).tool_calls = []
    · simp [graph_step, create_assistant, tools_condition, List.getLast?_concat,
        hrole, htc]
    · simp [graph_step, create_assistant, tools_condition, List.getLast?_concat,
        hrole, htc]

theorem engine_loops_to_reasoning_and_terminates_witness :
    graph_step system_prompt (fun _ => demo_reply) 5 (fun _ => "7")
      (Node.tools, [demo_user, demo_assistant_call])
      = some (Node.assistant, [demo_user, demo_assistant_call, demo_tool_result]) := by
  have h := (engine_loops_to_reasoning_and_terminates system_prompt
    (fun _ => demo_reply) 5 (fun _ => "7") (fun _ => rfl)).1
    [demo_user, demo_assistant_call]
  rw [h]
  decide

/-- C6: under the math-only classification gate, a turn whose last user
message the classifier marks non-math transitions directly from START
through the validation node to END, visiting neither the `assistant`
(reasoning) node nor the `tools` node, with exactly the canned refusal
appended; a turn marked as math proceeds from the validation node to the
`assistant` node. -/
theorem math_gate_short_circuits
    (classify_math : String → Bool) (llm_with_tools : List Message → Message)
    (exec_tool : ToolCall → String) (s : MState) (m : Message) (fuel : Nat)
    (hlast : s.messages.getLast? = some m) :
    (classify_math m.content = false →
      run01 classify_math llm_with_tools exec_tool (fuel + 3) (Node01.START, s)
        = ([Node01.START, Node01.validate_math, Node01.END],
           { messages := s.messages ++ [refusal_message],
             is_math_question := false })) ∧
    (classify_math m.content = true →
      step01 classify_math llm_with_tools exec_tool (Node01.validate_math, s)
        = some (Node01.assistant, { s with is_math_question := true })) := by
  have hval_false : classify_math m.content = false →
      validate_math_question classify_math s
        = { messages := s.messages ++ [refusal_message],
            is_math_question := false } := by
    intro hc
    unfold validate_math_question
    rw [hlast]
    simp [hc]
  have hval_true : classify_math m.content = true →
      validate_math_question classify_math s = { s with is_math_question := true } := by
    intro hc
    unfold validate_math_question
    rw [hlast]
    simp [hc]
  constructor
  · intro hc
    rw [show fuel + 3 = fuel + 1 + 1 + 1 from rfl]
    simp [run01, step01, hval_false hc, route_after_validation]
  · intro hc
    simp [step01, hval_true hc, route_after_validation]

theorem math_gate_short_circuits_witness :
    run01 (fun _ => false) (fun _ => demo_reply) (fun _ => "7") 3
      (Node01.START,
        { messages := [{ role := Role.user, content := "What is the weather today?" }] })
      = ([Node01.START, Node01.validate_math, Node01.END],
         { messages := [{ role := Role.user, content := "What is the weather today?" },
                        refusal_message],
           is_math_question := false }) := by
  have h := (math_gate_short_circuits (fun _ => false) (fun _ => demo_reply)
    (fun _ => "7")
    { messages := [{ role := Role.user, content := "What is the weather today?" }] }
    { role := Role.user, content := "What is the weather today?" } 0 rfl).1 rfl
  simpa using h
